import Mathlib

/-!
# Annual parallax simulator (js/parallax-simulator.js)

A shallow embedding of the class ParallaxSimulator.

Modelling conventions
* A JavaScript Number is modelled as an exact number: no rounding, no NaN, no
  infinities.  Code that only adds, multiplies, divides and compares is written over
  an arbitrary linear ordered field (so it runs on the rationals); code that calls
  Math.cos, Math.sin, Math.sqrt or Math.atan2 is written over the reals.
* Math.atan2 (y, x) is the principal argument of the complex number x + i y, with
  values in (-pi, pi] and value 0 at the origin.
* The operator % is the truncated remainder, whose sign follows the dividend.
* The simulation state is the set of mutable fields of the object together with the
  three DOM properties the handlers write (cursor, disabled flag of the two buttons).
  Canvas drawing and DOM text are outputs; the numbers they show are given by pure
  functions (earthPosition, updateUI, calculateParallax).
-/

namespace ParallaxSimulator

/-! ## Data model -/

/-- Near star record of the constructor (lines 30-51); the field realName, a label
that no computation reads, is left out. -/
structure Star where
  name : String
  baseX : ℝ
  baseY : ℝ
  distance : ℝ
  color : String
  size : ℝ
  brightness : ℝ

/-- Record returned by calculateParallax (lines 113-119). -/
structure ParallaxData where
  parallax : ℝ
  deltaX : ℝ
  deltaY : ℝ
  apparentX : ℝ
  apparentY : ℝ

/-- Background star record pushed by generateBackgroundStars (lines 83-89).  The
field alpha is the number spliced into the colour string rgba(200, 200, 200, alpha). -/
structure BackgroundStar where
  x : ℝ
  y : ℝ
  size : ℝ
  alpha : ℝ
  twinkle : ℝ

/-- Values of solarCanvas.style.cursor written by the handlers. -/
inductive Cursor where
  | default
  | grab
  | grabbing
  deriving DecidableEq, Repr

/-- Mutable state of the simulator (lines 15-19) and the DOM properties written by
play, pause and the mouse handlers. -/
structure State (α : Type) where
  time : α
  isPlaying : Bool
  isDragging : Bool
  animationSpeed : α
  lastTime : α
  cursor : Cursor
  playBtnDisabled : Bool
  pauseBtnDisabled : Bool

/-- Result of solarCanvas.getBoundingClientRect (), as far as the handlers read it. -/
structure Rect where
  left : ℝ
  top : ℝ

/-- Mouse event, as far as the handlers read it. -/
structure MouseEvent where
  clientX : ℝ
  clientY : ℝ

/-- Numbers that updateUI formats into the DOM, before toFixed. -/
structure UIDisplay (α : Type) where
  timeDisplay : α
  degrees : α
  seasonIndex : ℤ
  speedDisplay : α

/-! ## Constants of the constructor -/

/-- Line 23: this.earthOrbitRadius = 180. -/
def earthOrbitRadius : ℝ := 180

/-- Line 24: this.centerX = 250. -/
def centerX : ℝ := 250

/-- Line 25: this.centerY = 250. -/
def centerY : ℝ := 250

/-- Built-in star A (lines 31-40). -/
def starA : Star :=
  { name := "A", baseX := 90, baseY := -80, distance := 2.5, color := "#ff4444",
    size := 6, brightness := 1.2 }

/-- Built-in star B (lines 41-50). -/
def starB : Star :=
  { name := "B", baseX := 110, baseY := -60, distance := 5.0, color := "#ff6666",
    size := 5, brightness := 1.0 }

/-- Line 30: this.stars. -/
def stars : List Star := [starA, starB]

/-! ## Library functions of the host language -/

/-- Math.atan2 (y, x): the principal argument of x + i y. -/
noncomputable def atan2 (y x : ℝ) : ℝ := Complex.arg ⟨x, y⟩

/-- Truncation toward zero, as used by the remainder operator. -/
def trunc {α : Type} [LinearOrderedField α] [FloorRing α] (a : α) : ℤ :=
  if 0 ≤ a then Int.floor a else Int.ceil a

/-- The operator a % b on numbers: a minus b times the truncated quotient. -/
def jsMod {α : Type} [LinearOrderedField α] [FloorRing α] (a b : α) : α :=
  a - b * (trunc (a / b) : ℤ)

/-! ## generateBackgroundStars (lines 69-93) -/

/-- One call of the closure random (lines 74-77) from the given seed: the value
returned and the seed left behind. -/
def random (seed : ℕ) : ℚ × ℕ :=
  let seed1 := (seed * 9301 + 49297) % 233280
  ((seed1 : ℚ) / 233280, seed1)

/-- The for loop of lines 79-90, with the number of iterations still to run, the
current seed and the array built so far. -/
noncomputable def generateLoop : ℕ → ℕ → List BackgroundStar → List BackgroundStar
  | 0, _, acc => acc
  | n + 1, seed, acc =>
    let r1 := random seed
    let angle : ℝ := (r1.1 : ℝ) * 2 * Real.pi
    let r2 := random r1.2
    let radius : ℝ := 100 + (r2.1 : ℝ) * 120
    let r3 := random r2.2
    let r4 := random r3.2
    let r5 := random r4.2
    generateLoop n r5.2
      (acc ++ [{ x := radius * Real.cos angle
                 y := radius * Real.sin angle
                 size := 1 + (r3.1 : ℝ) * 2
                 alpha := 0.3 + (r4.1 : ℝ) * 0.4
                 twinkle := (r5.1 : ℝ) * 2 * Real.pi }])

/-- Lines 69-93: the array starts empty and the seed starts at 42. -/
noncomputable def generateBackgroundStars (count : ℕ) : List BackgroundStar :=
  generateLoop count 42 []

/-- Seed held by the closure random after k calls, starting from the seed 42 of line 73. -/
def seedAfter (k : ℕ) : ℕ := (fun seed => (random seed).2)^[k] 42

/-- The record pushed by one iteration of the loop (lines 80-89) when the closure
holds the given seed on entry: five successive calls of random, in source order. -/
noncomputable def iterationStar (seed : ℕ) : BackgroundStar :=
  let r1 := random seed
  let r2 := random r1.2
  let r3 := random r2.2
  let r4 := random r3.2
  let r5 := random r4.2
  { x := (100 + (r2.1 : ℝ) * 120) * Real.cos ((r1.1 : ℝ) * 2 * Real.pi)
    y := (100 + (r2.1 : ℝ) * 120) * Real.sin ((r1.1 : ℝ) * 2 * Real.pi)
    size := 1 + (r3.1 : ℝ) * 2
    alpha := 0.3 + (r4.1 : ℝ) * 0.4
    twinkle := (r5.1 : ℝ) * 2 * Real.pi }

/-! ## calculateParallax (lines 100-120) and the Earth position -/

/-- Lines 100-120. -/
noncomputable def calculateParallax (star : Star) (earthAngle : ℝ) : ParallaxData :=
  let theoreticalParallax := 1.0 / star.distance
  let earthX := Real.cos earthAngle
  let parallaxScale : ℝ := 20
  let deltaX := -earthX * theoreticalParallax * parallaxScale
  let deltaY : ℝ := 0
  { parallax := theoreticalParallax
    deltaX := deltaX
    deltaY := deltaY
    apparentX := star.baseX + deltaX
    apparentY := star.baseY + deltaY }

/-- Lines 172, 269, 343, 396, 419: earthAngle = -this.time * 2 * Math.PI. -/
noncomputable def earthAngle (time : ℝ) : ℝ := -time * 2 * Real.pi

/-- Lines 172-174 (also 396-398 and 419-421): canvas position of the Earth. -/
noncomputable def earthPosition (time : ℝ) : ℝ × ℝ :=
  (centerX + earthOrbitRadius * Real.cos (earthAngle time),
   centerY + earthOrbitRadius * Real.sin (earthAngle time))

/-- Lines 288-292 of drawStarField: the parallax record of a star at the current
time and the canvas point at which the star is drawn. -/
noncomputable def drawStarFieldStar (time : ℝ) (star : Star) : ParallaxData × (ℝ × ℝ) :=
  let parallaxData := calculateParallax star (earthAngle time)
  (parallaxData, (centerX + parallaxData.apparentX, centerY + parallaxData.apparentY))

/-! ## updateUI (lines 342-357) -/

/-- Lines 342-357: the numbers written to the DOM, before formatting. -/
def updateUI {α : Type} [LinearOrderedField α] [FloorRing α] (s : State α) : UIDisplay α :=
  { timeDisplay := s.time
    degrees := jsMod (360 - s.time * 360) 360
    seasonIndex := Int.floor (jsMod s.time 1 * 4)
    speedDisplay := s.animationSpeed }

/-! ## play, pause, reset, onMouseUp (lines 469-499) -/

/-- Lines 477-481. -/
def play {α : Type} (s : State α) : State α :=
  { s with isPlaying := true, playBtnDisabled := true, pauseBtnDisabled := false }

/-- Lines 486-490. -/
def pause {α : Type} (s : State α) : State α :=
  { s with isPlaying := false, playBtnDisabled := false, pauseBtnDisabled := true }

/-- Lines 495-499. -/
def reset {α : Type} [Zero α] (s : State α) : State α :=
  pause { s with time := 0 }

/-- Lines 469-472. -/
def onMouseUp {α : Type} (s : State α) : State α :=
  { s with isDragging := false, cursor := Cursor.default }

/-! ## onMouseDown (lines 391-407) and onMouseMove (lines 412-440) -/

/-- Lines 391-407. -/
noncomputable def onMouseDown (s : State ℝ) (rect : Rect) (e : MouseEvent) : State ℝ :=
  let x := e.clientX - rect.left
  let y := e.clientY - rect.top
  let earthAngle := -s.time * 2 * Real.pi
  let earthX := centerX + earthOrbitRadius * Real.cos earthAngle
  let earthY := centerY + earthOrbitRadius * Real.sin earthAngle
  let distance := Real.sqrt ((x - earthX) ^ 2 + (y - earthY) ^ 2)
  if distance < 25 then
    { pause { s with isDragging := true } with cursor := Cursor.grabbing }
  else s

/-- Lines 412-440. -/
noncomputable def onMouseMove (s : State ℝ) (rect : Rect) (e : MouseEvent) : State ℝ :=
  if !s.isDragging then
    let x := e.clientX - rect.left
    let y := e.clientY - rect.top
    let earthAngle := -s.time * 2 * Real.pi
    let earthX := centerX + earthOrbitRadius * Real.cos earthAngle
    let earthY := centerY + earthOrbitRadius * Real.sin earthAngle
    let distance := Real.sqrt ((x - earthX) ^ 2 + (y - earthY) ^ 2)
    { s with cursor := if distance < 25 then Cursor.grab else Cursor.default }
  else
    let x := e.clientX - rect.left - centerX
    let y := e.clientY - rect.top - centerY
    let angle0 := atan2 y x
    let angle := if angle0 < 0 then angle0 + 2 * Real.pi else angle0
    { s with time := (2 * Real.pi - angle) / (2 * Real.pi) }

/-! ## animate (lines 504-529) -/

/-- Lines 504-513: the state update of one animation frame. -/
def animate {α : Type} [LinearOrderedField α] (s : State α) (currentTime : α) : State α :=
  let time :=
    if s.isPlaying && !s.isDragging then
      let deltaTime := (currentTime - s.lastTime) / 1000
      let time1 := s.time + deltaTime * 0.1 * s.animationSpeed
      if time1 ≥ 1 then time1 - 1 else time1
    else s.time
  { s with time := time, lastTime := currentTime }

/-! ## Theorems -/

theorem calculateParallax_deltaX (star : Star) (a : ℝ) :
    (calculateParallax star a).deltaX = -Real.cos a / star.distance * 20 := by
  simp only [calculateParallax]
  ring

/-- C1: for every star with non-zero distance and every time t, calculateParallax
called as drawStarField calls it (earthAngle = -t * 2 * pi) returns
deltaX = -cos (2 pi t) / distance * 20 and deltaY = 0, the apparent position is
(baseX - 20 cos (2 pi t) / distance, baseY), and the star is drawn at that offset from
the canvas centre: only the X coordinate moves. -/
theorem calculateParallax_at_time (star : Star) (t : ℝ) (_hd : star.distance ≠ 0) :
    (calculateParallax star (earthAngle t)).deltaX
        = -Real.cos (2 * Real.pi * t) / star.distance * 20 ∧
    (calculateParallax star (earthAngle t)).deltaY = 0 ∧
    (calculateParallax star (earthAngle t)).apparentX
        = star.baseX - 20 * Real.cos (2 * Real.pi * t) / star.distance ∧
    (calculateParallax star (earthAngle t)).apparentY = star.baseY ∧
    (drawStarFieldStar t star).2
        = (centerX + (star.baseX - 20 * Real.cos (2 * Real.pi * t) / star.distance),
           centerY + star.baseY) := by
  have hc : Real.cos (earthAngle t) = Real.cos (2 * Real.pi * t) := by
    have : earthAngle t = -(2 * Real.pi * t) := by unfold earthAngle; ring
    rw [this, Real.cos_neg]
  have hx : (calculateParallax star (earthAngle t)).apparentX
      = star.baseX - 20 * Real.cos (2 * Real.pi * t) / star.distance := by
    simp only [calculateParallax, hc]; ring
  have hy : (calculateParallax star (earthAngle t)).apparentY = star.baseY := by
    simp only [calculateParallax, add_zero]
  refine ⟨?_, rfl, hx, hy, ?_⟩
  · rw [calculateParallax_deltaX, hc]
  · simp only [drawStarFieldStar, hx, hy]

theorem calculateParallax_at_time_witness :
    starA.distance ≠ 0 ∧
    (calculateParallax starA (earthAngle 0)).deltaX
        = -Real.cos (2 * Real.pi * 0) / starA.distance * 20 := by
  have hd : starA.distance ≠ 0 := by norm_num [starA]
  exact ⟨hd, (calculateParallax_at_time starA 0 hd).1⟩

/-- C2: for every star with non-zero distance the parallax field returned by
calculateParallax is 1 / distance whatever the Earth angle (so it is the same at any
two angles a and b); for the built-in stars A (distance 2.5) and B (distance 5.0) it
is 0.4 and 0.2. -/
theorem calculateParallax_parallax (star : Star) (a b : ℝ) (_hd : star.distance ≠ 0) :
    (calculateParallax star a).parallax = 1 / star.distance ∧
    (calculateParallax star a).parallax = (calculateParallax star b).parallax ∧
    (calculateParallax starA a).parallax = 0.4 ∧
    (calculateParallax starB a).parallax = 0.2 ∧
    starA ∈ stars ∧ starB ∈ stars ∧ starA.distance = 2.5 ∧ starB.distance = 5.0 := by
  refine ⟨?_, rfl, ?_, ?_, by simp [stars], by simp [stars], rfl, rfl⟩
  · simp only [calculateParallax]; norm_num
  · simp only [calculateParallax, starA]; norm_num
  · simp only [calculateParallax, starB]; norm_num

theorem calculateParallax_parallax_witness :
    starB.distance ≠ 0 ∧ (calculateParallax starB 1).parallax = 1 / starB.distance := by
  have hd : starB.distance ≠ 0 := by norm_num [starB]
  exact ⟨hd, (calculateParallax_parallax starB 1 2 hd).1⟩

/-- C10: for every star with non-zero distance and every time t, the shift deltaX half
a year later is the opposite of the shift at t, the shift one year later is the same,
and its absolute value is at most 20 / |distance|, with equality at t = 0 and at
t = 1/2. -/
theorem calculateParallax_half_year (star : Star) (t : ℝ) (_hd : star.distance ≠ 0) :
    (calculateParallax star (earthAngle (t + 1 / 2))).deltaX
        = -(calculateParallax star (earthAngle t)).deltaX ∧
    (calculateParallax star (earthAngle (t + 1))).deltaX
        = (calculateParallax star (earthAngle t)).deltaX ∧
    |(calculateParallax star (earthAngle t)).deltaX| ≤ 20 / |star.distance| ∧
    |(calculateParallax star (earthAngle 0)).deltaX| = 20 / |star.distance| ∧
    |(calculateParallax star (earthAngle (1 / 2))).deltaX| = 20 / |star.distance| := by
  have habs : ∀ a : ℝ, |(calculateParallax star a).deltaX|
      = |Real.cos a| * (20 / |star.distance|) := by
    intro a
    rw [calculateParallax_deltaX, abs_mul, abs_div, abs_neg]
    have h20 : |(20 : ℝ)| = 20 := abs_of_pos (by norm_num)
    rw [h20]
    ring
  have hpos : (0 : ℝ) ≤ 20 / |star.distance| :=
    div_nonneg (by norm_num) (abs_nonneg _)
  have h1 : earthAngle (t + 1 / 2) = earthAngle t - Real.pi := by
    unfold earthAngle; ring
  have h2 : earthAngle (t + 1) = earthAngle t - 2 * Real.pi := by
    unfold earthAngle; ring
  have h3 : earthAngle 0 = 0 := by unfold earthAngle; ring
  have h4 : earthAngle (1 / 2) = -Real.pi := by unfold earthAngle; ring
  refine ⟨?_, ?_, ?_, ?_, ?_⟩
  · rw [calculateParallax_deltaX, calculateParallax_deltaX, h1, Real.cos_sub_pi]
    ring
  · rw [calculateParallax_deltaX, calculateParallax_deltaX, h2, Real.cos_sub_two_pi]
  · rw [habs]
    calc |Real.cos (earthAngle t)| * (20 / |star.distance|)
        ≤ 1 * (20 / |star.distance|) :=
          mul_le_mul_of_nonneg_right (Real.abs_cos_le_one _) hpos
      _ = 20 / |star.distance| := one_mul _
  · rw [habs, h3, Real.cos_zero, abs_one, one_mul]
  · rw [habs, h4, Real.cos_neg, Real.cos_pi, abs_neg, abs_one, one_mul]

theorem calculateParallax_half_year_witness :
    starA.distance ≠ 0 ∧
    (calculateParallax starA (earthAngle (0 + 1 / 2))).deltaX
        = -(calculateParallax starA (earthAngle 0)).deltaX := by
  have hd : starA.distance ≠ 0 := by norm_num [starA]
  exact ⟨hd, (calculateParallax_half_year starA 0 hd).1⟩

theorem animate_not_playing {α : Type} [LinearOrderedField α]
    (s : State α) (currentTime : α) (h : s.isPlaying = false ∨ s.isDragging = true) :
    animate s currentTime = { s with lastTime := currentTime } := by
  have hc : (s.isPlaying && !s.isDragging) = false := by
    rcases h with h | h <;> simp [h]
  simp only [animate, hc, Bool.false_eq_true, if_false]

theorem animate_playing {α : Type} [LinearOrderedField α]
    (s : State α) (currentTime : α) (hp : s.isPlaying = true) (hd : s.isDragging = false) :
    (animate s currentTime).time =
      if s.time + (currentTime - s.lastTime) / 1000 * 0.1 * s.animationSpeed ≥ 1 then
        s.time + (currentTime - s.lastTime) / 1000 * 0.1 * s.animationSpeed - 1
      else s.time + (currentTime - s.lastTime) / 1000 * 0.1 * s.animationSpeed := by
  simp [animate, hp, hd]

/-- C6: when isPlaying is false or isDragging is true, animate changes nothing of the
state but lastTime, which becomes currentTime (time, isPlaying, isDragging and
animationSpeed are unchanged); and onMouseMove leaves time unchanged when isDragging
is false. -/
theorem time_advances_only_during_playback (s : State ℝ) (currentTime : ℝ)
    (rect : Rect) (e : MouseEvent) :
    ((s.isPlaying = false ∨ s.isDragging = true) →
      animate s currentTime = { s with lastTime := currentTime } ∧
      (animate s currentTime).time = s.time ∧
      (animate s currentTime).isPlaying = s.isPlaying ∧
      (animate s currentTime).isDragging = s.isDragging ∧
      (animate s currentTime).animationSpeed = s.animationSpeed ∧
      (animate s currentTime).lastTime = currentTime) ∧
    (s.isDragging = false → (onMouseMove s rect e).time = s.time) := by
  constructor
  · intro h
    rw [animate_not_playing s currentTime h]
    exact ⟨rfl, rfl, rfl, rfl, rfl, rfl⟩
  · intro h
    simp [onMouseMove, h]

theorem time_advances_only_during_playback_witness :
    (animate (⟨1 / 4, false, false, 1, 0, Cursor.default, false, true⟩ : State ℝ) 16).time
        = 1 / 4 ∧
    (onMouseMove ⟨1 / 4, false, false, 1, 0, Cursor.default, false, true⟩ ⟨0, 0⟩
        ⟨430, 250⟩).time = 1 / 4 := by
  have h := time_advances_only_during_playback
    ⟨1 / 4, false, false, 1, 0, Cursor.default, false, true⟩ 16 ⟨0, 0⟩ ⟨430, 250⟩
  exact ⟨(h.1 (Or.inl rfl)).2.1, h.2 rfl⟩

/-- C9: with (x, y) = (clientX - rect.left, clientY - rect.top) the pointer in canvas
coordinates, if its Euclidean distance to the Earth position is below 25 then after
onMouseDown isDragging is true and isPlaying is false; otherwise isDragging and
isPlaying are unchanged; in both cases time is unchanged. -/
theorem onMouseDown_starts_drag (s : State ℝ) (rect : Rect) (e : MouseEvent) :
    (Real.sqrt ((e.clientX - rect.left - (earthPosition s.time).1) ^ 2
        + (e.clientY - rect.top - (earthPosition s.time).2) ^ 2) < 25 →
      (onMouseDown s rect e).isDragging = true ∧
      (onMouseDown s rect e).isPlaying = false) ∧
    (¬ Real.sqrt ((e.clientX - rect.left - (earthPosition s.time).1) ^ 2
        + (e.clientY - rect.top - (earthPosition s.time).2) ^ 2) < 25 →
      (onMouseDown s rect e).isDragging = s.isDragging ∧
      (onMouseDown s rect e).isPlaying = s.isPlaying) ∧
    (onMouseDown s rect e).time = s.time := by
  simp only [earthPosition, earthAngle]
  refine ⟨?_, ?_, ?_⟩
  · intro h
    simp only [onMouseDown, h, if_true, pause, and_self]
  · intro h
    simp only [onMouseDown, h, if_false, and_self]
  · simp only [onMouseDown]
    split_ifs <;> rfl

theorem onMouseDown_starts_drag_witness :
    (onMouseDown ⟨0, true, false, 1, 0, Cursor.default, true, false⟩ ⟨0, 0⟩
        ⟨430, 250⟩).isDragging = true ∧
    (onMouseDown ⟨0, true, false, 1, 0, Cursor.default, true, false⟩ ⟨0, 0⟩
        ⟨430, 250⟩).isPlaying = false := by
  refine (onMouseDown_starts_drag
    ⟨0, true, false, 1, 0, Cursor.default, true, false⟩ ⟨0, 0⟩ ⟨430, 250⟩).1 ?_
  simp [earthPosition, earthAngle, centerX, centerY, earthOrbitRadius]
  norm_num

/-- Within one year of slack the single subtraction of line 510 is the fractional
part: if the advanced time stays below 2, animate leaves time in [0, 1). -/
theorem animate_time_fract_of_lt_two (s : State ℝ) (currentTime : ℝ)
    (ht0 : 0 ≤ s.time) (hp : s.isPlaying = true) (hd : s.isDragging = false)
    (hv : 0 ≤ s.animationSpeed) (hc : s.lastTime ≤ currentTime)
    (hlt : s.time + (currentTime - s.lastTime) / 1000 * 0.1 * s.animationSpeed < 2) :
    (animate s currentTime).time
        = Int.fract (s.time + (currentTime - s.lastTime) / 1000 * 0.1 * s.animationSpeed) ∧
    0 ≤ (animate s currentTime).time ∧ (animate s currentTime).time < 1 := by
  have hstep : 0 ≤ (currentTime - s.lastTime) / 1000 * 0.1 * s.animationSpeed := by
    have : 0 ≤ currentTime - s.lastTime := sub_nonneg.mpr hc
    positivity
  rw [animate_playing s currentTime hp hd]
  set u := s.time + (currentTime - s.lastTime) / 1000 * 0.1 * s.animationSpeed with hu
  have hu0 : 0 ≤ u := by rw [hu]; linarith
  by_cases h1 : u ≥ 1
  · rw [if_pos h1]
    have hf : Int.fract u = u - 1 := by
      rw [Int.fract_eq_iff]
      refine ⟨by linarith, by linarith, ⟨1, by simp⟩⟩
    rw [hf]
    exact ⟨rfl, by linarith, by linarith⟩
  · rw [if_neg h1]
    have h1 : u < 1 := not_le.mp h1
    have hf : Int.fract u = u := Int.fract_eq_self.mpr ⟨hu0, h1⟩
    rw [hf]
    exact ⟨rfl, hu0, h1⟩

/-- C3 fails on the code: a frame that arrives 30 seconds after the previous one at
speed 1 advances the time by 3 years; line 510 subtracts 1 once and leaves time = 2,
while the fractional part of the advanced time is 0. -/
theorem animate_long_frame_leaves_unit_interval :
    (0 : ℝ) ≤ 0 ∧ (0 : ℝ) < 1 ∧ (0 : ℝ) ≤ 1 ∧ (0 : ℝ) ≤ 30000 ∧
    (animate (⟨0, true, false, 1, 0, Cursor.default, true, false⟩ : State ℝ) 30000).time = 2 ∧
    Int.fract ((0 : ℝ) + (30000 - 0) / 1000 * 0.1 * 1) = 0 ∧
    ¬ (animate (⟨0, true, false, 1, 0, Cursor.default, true, false⟩ : State ℝ) 30000).time
        < 1 := by
  have ht : (animate (⟨0, true, false, 1, 0, Cursor.default, true, false⟩ : State ℝ)
      30000).time = 2 := by
    rw [animate_playing _ _ rfl rfl]
    norm_num
  have hf : Int.fract ((0 : ℝ) + (30000 - 0) / 1000 * 0.1 * 1) = 0 := by
    have : ((0 : ℝ) + (30000 - 0) / 1000 * 0.1 * 1) = ((3 : ℤ) : ℝ) := by norm_num
    rw [this, Int.fract_intCast]
  refine ⟨le_refl _, by norm_num, by norm_num, by norm_num, ht, hf, ?_⟩
  rw [ht]
  norm_num

theorem onMouseMove_dragging (s : State ℝ) (rect : Rect) (e : MouseEvent)
    (h : s.isDragging = true) :
    (onMouseMove s rect e).time =
      (2 * Real.pi -
        (if atan2 (e.clientY - rect.top - centerY) (e.clientX - rect.left - centerX) < 0
          then atan2 (e.clientY - rect.top - centerY) (e.clientX - rect.left - centerX)
            + 2 * Real.pi
          else atan2 (e.clientY - rect.top - centerY) (e.clientX - rect.left - centerX)))
      / (2 * Real.pi) := by
  simp [onMouseMove, h]

theorem atan2_range (y x : ℝ) : -Real.pi < atan2 y x ∧ atan2 y x ≤ Real.pi :=
  ⟨Complex.neg_pi_lt_arg _, Complex.arg_le_pi _⟩

/-- What a drag does guarantee: the time set by onMouseMove lies in (0, 1]. -/
theorem onMouseMove_dragging_time_range (s : State ℝ) (rect : Rect) (e : MouseEvent)
    (h : s.isDragging = true) :
    0 < (onMouseMove s rect e).time ∧ (onMouseMove s rect e).time ≤ 1 := by
  rw [onMouseMove_dragging s rect e h]
  have hpi := Real.pi_pos
  obtain ⟨hlo, hhi⟩ :=
    atan2_range (e.clientY - rect.top - centerY) (e.clientX - rect.left - centerX)
  have h2 : (0 : ℝ) < 2 * Real.pi := by linarith
  split_ifs with hneg
  · constructor
    · apply div_pos _ h2; linarith
    · rw [div_le_one h2]; linarith
  · have hnn := not_lt.mp hneg
    constructor
    · apply div_pos _ h2; linarith
    · rw [div_le_one h2]; linarith

/-- C4 fails on the code: while dragging, a pointer 10 pixels to the right of the
canvas centre (canvas point (260, 250)) has angle atan2 (0, 10) = 0, and line 438
sets time = (2 pi - 0) / (2 pi) = 1, which is not below 1. -/
theorem onMouseMove_drag_right_of_centre_sets_time_one :
    (onMouseMove ⟨1 / 4, false, true, 1, 0, Cursor.grabbing, false, true⟩ ⟨0, 0⟩
        ⟨260, 250⟩).time = 1 ∧
    ¬ (onMouseMove ⟨1 / 4, false, true, 1, 0, Cursor.grabbing, false, true⟩ ⟨0, 0⟩
        ⟨260, 250⟩).time < 1 := by
  have harg : atan2 (250 - centerY) (260 - centerX) = 0 := by
    have hz : (⟨260 - centerX, 250 - centerY⟩ : ℂ) = ((10 : ℝ) : ℂ) := by
      apply Complex.ext <;> norm_num [centerX, centerY]
    unfold atan2
    rw [hz]
    exact Complex.arg_ofReal_of_nonneg (by norm_num)
  have ht : (onMouseMove ⟨1 / 4, false, true, 1, 0, Cursor.grabbing, false, true⟩ ⟨0, 0⟩
      ⟨260, 250⟩).time = 1 := by
    rw [onMouseMove_dragging _ _ _ rfl]
    simp only [sub_zero, harg, lt_self_iff_false, if_false]
    exact div_self (ne_of_gt (mul_pos two_pos Real.pi_pos))
  refine ⟨ht, ?_⟩
  rw [ht]
  exact lt_irrefl _

/-- C5: while dragging, for every pointer offset (x, y) from the canvas centre other
than (0, 0), the Earth position computed from the time set by onMouseMove is
(centerX + R x / sqrt (x^2 + y^2), centerY + R y / sqrt (x^2 + y^2)), and the Earth
angle -2 pi time differs from atan2 (y, x) by an integer multiple of 2 pi. -/
theorem onMouseMove_puts_earth_under_pointer (s : State ℝ) (rect : Rect) (e : MouseEvent)
    (hdrag : s.isDragging = true)
    (hne : (e.clientX - rect.left - centerX, e.clientY - rect.top - centerY) ≠ (0, 0)) :
    earthPosition (onMouseMove s rect e).time
      = (centerX + earthOrbitRadius * (e.clientX - rect.left - centerX)
            / Real.sqrt ((e.clientX - rect.left - centerX) ^ 2
                + (e.clientY - rect.top - centerY) ^ 2),
         centerY + earthOrbitRadius * (e.clientY - rect.top - centerY)
            / Real.sqrt ((e.clientX - rect.left - centerX) ^ 2
                + (e.clientY - rect.top - centerY) ^ 2)) ∧
    ∃ k : ℤ, earthAngle (onMouseMove s rect e).time
      = atan2 (e.clientY - rect.top - centerY) (e.clientX - rect.left - centerX)
        + k * (2 * Real.pi) := by
  set x := e.clientX - rect.left - centerX with hx
  set y := e.clientY - rect.top - centerY with hy
  have hpi : (2 * Real.pi) ≠ 0 := by positivity
  have hz : (⟨x, y⟩ : ℂ) ≠ 0 := by
    intro h0
    apply hne
    have h1 := congrArg Complex.re h0
    have h2 := congrArg Complex.im h0
    simp only [Complex.zero_re, Complex.zero_im] at h1 h2
    rw [h1, h2]
  have habs : Complex.abs ⟨x, y⟩ = Real.sqrt (x ^ 2 + y ^ 2) := by
    rw [Complex.abs_apply, Complex.normSq_mk]
    congr 1
    ring
  have hcos : Real.cos (atan2 y x) = x / Real.sqrt (x ^ 2 + y ^ 2) := by
    unfold atan2
    rw [Complex.cos_arg hz, habs]
  have hsin : Real.sin (atan2 y x) = y / Real.sqrt (x ^ 2 + y ^ 2) := by
    unfold atan2
    rw [Complex.sin_arg, habs]
  have hang : ∃ k : ℤ, earthAngle (onMouseMove s rect e).time
      = atan2 y x + k * (2 * Real.pi) := by
    rw [onMouseMove_dragging s rect e hdrag]
    unfold earthAngle
    split_ifs with hneg
    · refine ⟨0, ?_⟩
      field_simp
      ring
    · refine ⟨-1, ?_⟩
      field_simp
      ring
  refine ⟨?_, hang⟩
  obtain ⟨k, hk⟩ := hang
  have hc : Real.cos (earthAngle (onMouseMove s rect e).time) = Real.cos (atan2 y x) := by
    rw [hk, Real.cos_add_int_mul_two_pi]
  have hs : Real.sin (earthAngle (onMouseMove s rect e).time) = Real.sin (atan2 y x) := by
    rw [hk, Real.sin_add_int_mul_two_pi]
  unfold earthPosition
  rw [hc, hs, hcos, hsin, mul_div_assoc, mul_div_assoc]

theorem onMouseMove_puts_earth_under_pointer_witness :
    earthPosition (onMouseMove ⟨1 / 4, false, true, 1, 0, Cursor.grabbing, false, true⟩
        ⟨0, 0⟩ ⟨250, 100⟩).time
      = (centerX + earthOrbitRadius * (250 - 0 - centerX)
            / Real.sqrt ((250 - 0 - centerX) ^ 2 + (100 - 0 - centerY) ^ 2),
         centerY + earthOrbitRadius * (100 - 0 - centerY)
            / Real.sqrt ((250 - 0 - centerX) ^ 2 + (100 - 0 - centerY) ^ 2)) := by
  refine (onMouseMove_puts_earth_under_pointer
    ⟨1 / 4, false, true, 1, 0, Cursor.grabbing, false, true⟩ ⟨0, 0⟩ ⟨250, 100⟩ rfl ?_).1
  intro h
  have h2 := congrArg Prod.snd h
  norm_num [centerY] at h2

theorem jsMod_eq_self_of_lt {a b : ℝ} (ha : 0 ≤ a) (hab : a < b) : jsMod a b = a := by
  have hb : 0 < b := lt_of_le_of_lt ha hab
  have hq0 : 0 ≤ a / b := div_nonneg ha hb.le
  have hq1 : a / b < 1 := (div_lt_one hb).mpr hab
  have hfl : Int.floor (a / b) = 0 := by
    rw [Int.floor_eq_iff]
    exact ⟨by simpa using hq0, by simpa using hq1⟩
  simp only [jsMod, trunc, if_pos hq0, hfl, Int.cast_zero, mul_zero, sub_zero]

theorem jsMod_self {b : ℝ} (hb : 0 < b) : jsMod b b = 0 := by
  have hq : b / b = 1 := div_self hb.ne.symm
  simp only [jsMod, trunc, hq, zero_le_one, if_true, Int.floor_one, Int.cast_one, mul_one,
    sub_self]

/-- What updateUI does guarantee for a time in [0, 1): the angle shown lies in
[0, 360) and is the angle of the Earth in canvas coordinates (y pointing down, so
clockwise on the screen). -/
theorem updateUI_degrees_canvas_angle (s : State ℝ) (h0 : 0 ≤ s.time) (h1 : s.time < 1) :
    0 ≤ (updateUI s).degrees ∧ (updateUI s).degrees < 360 ∧
    earthPosition s.time
      = (centerX + earthOrbitRadius * Real.cos ((updateUI s).degrees * Real.pi / 180),
         centerY + earthOrbitRadius * Real.sin ((updateUI s).degrees * Real.pi / 180)) := by
  rcases eq_or_lt_of_le h0 with hz | hpos
  · have hd : (updateUI s).degrees = 0 := by
      simp only [updateUI, ← hz, zero_mul, sub_zero]
      exact jsMod_self (by norm_num)
    rw [hd, ← hz]
    refine ⟨le_refl _, by norm_num, ?_⟩
    simp [earthPosition, earthAngle]
  · have hd : (updateUI s).degrees = 360 - s.time * 360 := by
      simp only [updateUI]
      exact jsMod_eq_self_of_lt (by linarith) (by linarith)
    rw [hd]
    refine ⟨by linarith, by linarith, ?_⟩
    have ha : (360 - s.time * 360) * Real.pi / 180 = earthAngle s.time + 2 * Real.pi := by
      unfold earthAngle; ring
    rw [ha, Real.cos_add_two_pi, Real.sin_add_two_pi]
    rfl

/-- C8 fails on the code: at time 1/4 updateUI shows 270 degrees while drawSolarSystem
draws the Earth at the top of the canvas, (250, 70), a quarter turn counter-clockwise
on the screen; the point at 270 degrees counter-clockwise is the bottom, (250, 430). -/
theorem updateUI_degrees_quarter_year :
    (updateUI (⟨1 / 4, false, false, 1, 0, Cursor.default, false, true⟩ : State ℝ)).degrees
        = 270 ∧
    earthPosition (1 / 4) = (250, 70) ∧
    (centerX + earthOrbitRadius * Real.cos (270 * Real.pi / 180),
     centerY - earthOrbitRadius * Real.sin (270 * Real.pi / 180)) = (250, 430) ∧
    earthPosition (1 / 4)
      ≠ (centerX + earthOrbitRadius * Real.cos (270 * Real.pi / 180),
         centerY - earthOrbitRadius * Real.sin (270 * Real.pi / 180)) := by
  have hdeg : (updateUI (⟨1 / 4, false, false, 1, 0, Cursor.default, false, true⟩ :
      State ℝ)).degrees = 270 := by
    simp only [updateUI]
    rw [jsMod_eq_self_of_lt (by norm_num) (by norm_num)]
    norm_num
  have ha : earthAngle (1 / 4) = -(Real.pi / 2) := by unfold earthAngle; ring
  have hb : 270 * Real.pi / 180 = Real.pi / 2 + Real.pi := by ring
  have hpos : earthPosition (1 / 4) = (250, 70) := by
    unfold earthPosition
    rw [ha, Real.cos_neg, Real.sin_neg, Real.cos_pi_div_two, Real.sin_pi_div_two]
    norm_num [centerX, centerY, earthOrbitRadius]
  have hclaim : (centerX + earthOrbitRadius * Real.cos (270 * Real.pi / 180),
      centerY - earthOrbitRadius * Real.sin (270 * Real.pi / 180)) = (250, 430) := by
    rw [hb, Real.cos_add_pi, Real.sin_add_pi, Real.cos_pi_div_two, Real.sin_pi_div_two]
    norm_num [centerX, centerY, earthOrbitRadius]
  refine ⟨hdeg, hpos, hclaim, ?_⟩
  rw [hpos, hclaim]
  intro h
  have h2 := congrArg Prod.snd h
  norm_num at h2

theorem random_spec (seed : ℕ) :
    (random seed).2 = (seed * 9301 + 49297) % 233280 ∧
    (random seed).1 = ((random seed).2 : ℚ) / 233280 ∧
    0 ≤ (random seed).1 ∧ (random seed).1 < 1 := by
  have hlt : (seed * 9301 + 49297) % 233280 < 233280 := Nat.mod_lt _ (by norm_num)
  refine ⟨rfl, rfl, ?_, ?_⟩
  · simp only [random]
    exact div_nonneg (Nat.cast_nonneg _) (by norm_num)
  · simp only [random]
    rw [div_lt_one (by norm_num)]
    exact_mod_cast hlt

theorem random_real_range (seed : ℕ) :
    (0 : ℝ) ≤ ((random seed).1 : ℝ) ∧ ((random seed).1 : ℝ) < 1 := by
  obtain ⟨_, _, h0, h1⟩ := random_spec seed
  exact ⟨by exact_mod_cast h0, by exact_mod_cast h1⟩

theorem iterate_five {β : Type} (f : β → β) (b : β) : f^[5] b = f (f (f (f (f b)))) := rfl

theorem generateLoop_step (n seed : ℕ) (acc : List BackgroundStar) :
    generateLoop (n + 1) seed acc
      = generateLoop n ((fun s => (random s).2)^[5] seed) (acc ++ [iterationStar seed]) := by
  rw [iterate_five, generateLoop]
  simp only [iterationStar]

theorem generateLoop_closed_form (n : ℕ) :
    ∀ (seed : ℕ) (acc : List BackgroundStar),
      generateLoop n seed acc
        = acc ++ (List.range n).map
            (fun i => iterationStar ((fun s => (random s).2)^[5 * i] seed)) := by
  induction n with
  | zero => intro seed acc; simp [generateLoop]
  | succ n ih =>
    intro seed acc
    rw [generateLoop_step, ih, List.range_succ_eq_map, List.map_cons, List.map_map,
      List.append_assoc]
    refine congrArg (fun l => acc ++ l) ?_
    rw [List.singleton_append]
    refine congrArg₂ List.cons rfl ?_
    apply List.map_congr_left
    intro i _
    simp only [Function.comp_apply]
    rw [Nat.mul_succ, Function.iterate_add_apply]

theorem generateBackgroundStars_eq (count : ℕ) :
    generateBackgroundStars count
      = (List.range count).map (fun i => iterationStar (seedAfter (5 * i))) := by
  unfold generateBackgroundStars
  rw [generateLoop_closed_form]
  rfl

theorem iterationStar_bounds (seed : ℕ) :
    (∃ r : ℝ, 100 ≤ r ∧ r < 220 ∧
      (iterationStar seed).x ^ 2 + (iterationStar seed).y ^ 2 = r ^ 2) ∧
    1 ≤ (iterationStar seed).size ∧ (iterationStar seed).size < 3 ∧
    0 ≤ (iterationStar seed).twinkle ∧ (iterationStar seed).twinkle < 2 * Real.pi := by
  have hpi := Real.pi_pos
  simp only [iterationStar]
  refine ⟨⟨100 + ((random (random seed).2).1 : ℝ) * 120, ?_, ?_, ?_⟩, ?_, ?_, ?_, ?_⟩
  · have := (random_real_range (random seed).2).1
    linarith
  · have := (random_real_range (random seed).2).2
    linarith
  · have hcs := Real.cos_sq_add_sin_sq (((random seed).1 : ℝ) * 2 * Real.pi)
    rw [mul_pow, mul_pow, ← mul_add, hcs, mul_one]
  · have := (random_real_range (random (random seed).2).2).1
    linarith
  · have := (random_real_range (random (random seed).2).2).2
    linarith
  · have := (random_real_range (random (random (random (random seed).2).2).2).2).1
    positivity
  · have := (random_real_range (random (random (random (random seed).2).2).2).2).2
    nlinarith

/-- C7: generateBackgroundStars count returns exactly count stars; each call of random
replaces the seed by (seed * 9301 + 49297) mod 233280 and returns that seed divided by
233280, a value in [0, 1); the seed starts at 42 and star number i is built from the
draws 5 i + 1 to 5 i + 5 of that sequence (so the result is a function of count alone);
every star lies at a distance r from the centre with 100 <= r < 220, has size in
[1, 3) and twinkle phase in [0, 2 pi). -/
theorem generateBackgroundStars_spec (count : ℕ) :
    (generateBackgroundStars count).length = count ∧
    (∀ seed : ℕ,
      (random seed).2 = (seed * 9301 + 49297) % 233280 ∧
      (random seed).1 = ((random seed).2 : ℚ) / 233280 ∧
      0 ≤ (random seed).1 ∧ (random seed).1 < 1) ∧
    seedAfter 0 = 42 ∧
    (∀ i : ℕ, i < count →
      (generateBackgroundStars count)[i]? = some (iterationStar (seedAfter (5 * i)))) ∧
    (∀ star ∈ generateBackgroundStars count,
      (∃ r : ℝ, 100 ≤ r ∧ r < 220 ∧ star.x ^ 2 + star.y ^ 2 = r ^ 2) ∧
      1 ≤ star.size ∧ star.size < 3 ∧
      0 ≤ star.twinkle ∧ star.twinkle < 2 * Real.pi) := by
  refine ⟨?_, random_spec, rfl, ?_, ?_⟩
  · rw [generateBackgroundStars_eq, List.length_map, List.length_range]
  · intro i hi
    rw [generateBackgroundStars_eq, List.getElem?_map, List.getElem?_range hi]
    rfl
  · intro star hstar
    rw [generateBackgroundStars_eq, List.mem_map] at hstar
    obtain ⟨i, _, rfl⟩ := hstar
    exact iterationStar_bounds _

end ParallaxSimulator
